import Mathlib

/-!
# Verification of the kavak-domain-python data-access layer

Shallow embedding of the repository's core logic:

* `kavak/services/base_services/base_service.py` — the generic service:
  the filter/search compiler `__base_search`, the search executors
  `_search_paginated` / `_search_unlimited`, the plain query family
  (`_query`, `_query_with_count`, `_query_paginated`), and the CRUD
  operations `update` / `set`.
* `kavak/models/base_models/updatable_model.py` — `UpdatableModel`:
  the `_set_updated_at_as_created_at` before-validator and the
  `update` merge operation.
* `kavak/models/v1/vehicles.py` — `VehiclesModel`, the concrete entity
  schema used for the model-level theorems.

Python dictionaries are embedded as insertion-ordered association lists
(`JDict`); dynamic values as the inductive `JValue`.  The wall clock
(`round(time() * 1000)`) is passed as an explicit `now : Int` parameter.
The external repository collaborator is a record of functions.
-/

set_option autoImplicit false

namespace Kavak

/-- Dynamic (JSON-like) Python values as they appear in this library:
`None`, booleans, ints, strings, lists and dicts. -/
inductive JValue where
  | null : JValue
  | bool : Bool → JValue
  | num : Int → JValue
  | str : String → JValue
  | arr : List JValue → JValue
  | obj : List (String × JValue) → JValue

/-- A Python dict: an insertion-ordered association list.  All dicts built
by the source code have pairwise-distinct keys. -/
abbrev JDict := List (String × JValue)

/-- `d.get(k)` / `d[k]`: first entry with the given key. -/
def jget : JDict → String → Option JValue
  | [], _ => none
  | (k', v) :: rest, k => if k' = k then some v else jget rest k

/-- `d[k] = v`: replace the value at an existing key in place (keeping its
position), else append the new pair — Python dict assignment. -/
def dictSet : JDict → String → JValue → JDict
  | [], k, v => [(k, v)]
  | (k', v') :: rest, k, v =>
      if k' = k then (k, v) :: rest else (k', v') :: dictSet rest k v

/-- `{**d, **l}`: fold Python dict assignment over `l`'s entries. -/
def pyMerge (d : JDict) (l : JDict) : JDict :=
  l.foldl (fun acc kv => dictSet acc kv.1 kv.2) d

/-! ## Filter compiler (`BaseService.__base_search`)

Filter parameters default to `None` in the source and are only ever
truthiness-tested and iterated, so `None` and an empty dict behave
identically; both are embedded as the empty list.  A `dict` filter is a
`JDict`; `range` filter values are themselves dicts of bounds; the
`not_null` filter is a set of field names. -/

/-- `{"text": {"query": v, "path": k}}` -/
def textClause (k : String) (v : JValue) : JValue :=
  .obj [("text", .obj [("query", v), ("path", .str k)])]

/-- `{"autocomplete": {"query": v, "path": k}}` -/
def autocompleteClause (k : String) (v : JValue) : JValue :=
  .obj [("autocomplete", .obj [("query", v), ("path", .str k)])]

/-- `{"equals": {"value": v, "path": k}}` -/
def equalsClause (k : String) (v : JValue) : JValue :=
  .obj [("equals", .obj [("value", v), ("path", .str k)])]

/-- `{"range": {"path": k, **bounds}}` — bounds spread verbatim. -/
def rangeClause (k : String) (bounds : JDict) : JValue :=
  .obj [("range", .obj (pyMerge [("path", .str k)] bounds))]

/-- `{"wildcard": {"query": "*", "path": k, "allowAnalyzedField": True}}` -/
def wildcardClause (k : String) : JValue :=
  .obj [("wildcard", .obj [("query", .str "*"), ("path", .str k),
    ("allowAnalyzedField", .bool true)])]

/-- The `search_step["compound"]` dict: each key is present exactly when the
source allocated the corresponding bucket. -/
structure Compound where
  filter : Option (List JValue) := none
  mustNot : Option (List JValue) := none
  should : Option (List JValue) := none
  minimumShouldMatch : Option Int := none

/-- Python truthiness of the compound dict (`search_step.get("compound")`):
the empty dict is falsy. -/
def Compound.isEmpty : Compound → Bool
  | ⟨none, none, none, none⟩ => true
  | _ => false

/-- The dict returned by `__base_search`: index, compound clause, and the
optional stage-level sort key. -/
structure SearchStep where
  index : String
  compound : Compound
  sort : Option JDict := none

/-- `BaseService.__base_search`: compile the filter categories into one
search stage.  Appends into the `filter` bucket happen in source order
text → equal → range → not_null, into `mustNot` in order
not_text → not_autocomplete → not_equal; `autocomplete` entries go into
`should` together with `minimumShouldMatch = 1`; a truthy `sort` is
attached at stage level. -/
def base_search (index : String)
    (text_filters autocomplete_filters equal_filters : JDict)
    (range_filters : List (String × JDict))
    (not_text_filters not_autocomplete_filters not_equal_filters : JDict)
    (not_null_filters : List String)
    (sort : Option JDict) : SearchStep :=
  let filterBucket : Option (List JValue) :=
    if text_filters.isEmpty ∧ equal_filters.isEmpty ∧ range_filters.isEmpty ∧
        not_null_filters.isEmpty then none
    else some (text_filters.map (fun kv => textClause kv.1 kv.2)
      ++ equal_filters.map (fun kv => equalsClause kv.1 kv.2)
      ++ range_filters.map (fun kv => rangeClause kv.1 kv.2)
      ++ not_null_filters.map wildcardClause)
  let mustNotBucket : Option (List JValue) :=
    if not_text_filters.isEmpty ∧ not_equal_filters.isEmpty ∧
        not_autocomplete_filters.isEmpty then none
    else some (not_text_filters.map (fun kv => textClause kv.1 kv.2)
      ++ not_autocomplete_filters.map (fun kv => autocompleteClause kv.1 kv.2)
      ++ not_equal_filters.map (fun kv => equalsClause kv.1 kv.2))
  { index := index
    compound :=
      { filter := filterBucket
        mustNot := mustNotBucket
        should :=
          if autocomplete_filters.isEmpty then none
          else some (autocomplete_filters.map fun kv => autocompleteClause kv.1 kv.2)
        minimumShouldMatch := if autocomplete_filters.isEmpty then none else some 1 }
    sort :=
      match sort with
      | none => none
      | some s => if s.isEmpty then none else some s }

/-! ## Query/search executor (`BaseService._query*`, `_search_*`)

The external repository collaborator (a Mongo client in the host
application) is a record of functions.  A plain query is identified by its
collection plus the AND/OR condition triples applied to the builder. -/

/-- A native query condition triple `(field, operator, value)`. -/
abbrev Cond := String × String × JValue

/-- The state of a repository query builder after
`BaseService.__base_query`: the collection plus any applied conditions.
`and_search` / `or_search` are skipped for falsy (empty / `None`)
condition lists, which leaves the builder unchanged, so both encode to the
empty list. -/
structure QueryReq where
  collection : String
  andConds : List Cond := []
  orConds : List Cond := []

/-- `BaseService.__base_query`. -/
def base_query (collection : String) (and_conditions or_conditions : List Cond) :
    QueryReq :=
  { collection := collection, andConds := and_conditions, orConds := or_conditions }

/-- The repository collaborator: every operation the embedded service
methods invoke.  `getAll`'s last argument is the optional `limit` keyword
(`none` = keyword not passed); `aggregateNext` is
`collection.aggregate(pipeline).next()`; `aggregateAll` is
`list(collection.aggregate(pipeline))`. -/
structure Repo where
  count : QueryReq → Nat
  getAll : QueryReq → Option JValue → Option (List String) → Option Int → List JValue
  paginate : QueryReq → Int → Int → Option JValue → Option (List String) → List JValue
  aggregateNext : String → List JValue → JDict
  aggregateAll : String → List JValue → List JValue

/-- Encode the compound structure back into the dict the source builds
(key insertion order: `filter`, `mustNot`, `should`,
`minimumShouldMatch`). -/
def encodeCompound (c : Compound) : JDict :=
  (match c.filter with | some l => [("filter", JValue.arr l)] | none => [])
  ++ (match c.mustNot with | some l => [("mustNot", JValue.arr l)] | none => [])
  ++ (match c.should with | some l => [("should", JValue.arr l)] | none => [])
  ++ (match c.minimumShouldMatch with
      | some n => [("minimumShouldMatch", JValue.num n)] | none => [])

/-- Encode a search step as the dict passed in the `$search` stage. -/
def encodeSearchStep (s : SearchStep) : JValue :=
  .obj ([("index", .str s.index), ("compound", .obj (encodeCompound s.compound))]
    ++ (match s.sort with | some d => [("sort", JValue.obj d)] | none => []))

/-- The aggregation pipeline built by `BaseService._search_paginated`:
`$search`, then a `$facet` with a windowed `results` branch
(`$skip = limit * (page - 1)`, `$limit = limit`) and a `totalCount`
branch, then `$addFields` hoisting the count. -/
def search_pipeline (step : SearchStep) (page limit : Int) : List JValue :=
  [ .obj [("$search", encodeSearchStep step)],
    .obj [("$facet", .obj
      [("results", .arr [.obj [("$skip", .num (limit * (page - 1)))],
                         .obj [("$limit", .num limit)]]),
       ("totalCount", .arr [.obj [("$count", .str "count")]])])],
    .obj [("$addFields", .obj
      [("count", .obj [("$arrayElemAt", .arr [.str "$totalCount.count", .num 0])])])] ]

/-- `BaseService._search_paginated`: compile the filters; if the compound
clause is truthy, run the aggregation pipeline and read `count`
(default 0) and `results` out of its first document; otherwise fall back
to a plain paginated query on the collection.  The result is the returned
`(count, documents)` pair, with the fallback's native values encoded as
`JValue`s. -/
def search_paginated (repo : Repo) (collection : String) (index : String)
    (page limit : Int)
    (text_filters autocomplete_filters equal_filters : JDict)
    (range_filters : List (String × JDict))
    (not_text_filters not_autocomplete_filters not_equal_filters : JDict)
    (not_null_filters : List String)
    (sort : Option JDict) : JValue × Option JValue :=
  let step := base_search index text_filters autocomplete_filters equal_filters
    range_filters not_text_filters not_autocomplete_filters not_equal_filters
    not_null_filters sort
  if step.compound.isEmpty then
    let q := base_query collection [] []
    (.num (repo.count q),
     some (.arr (repo.paginate q page limit (sort.map JValue.obj) none)))
  else
    let data := repo.aggregateNext collection (search_pipeline step page limit)
    ((jget data "count").getD (.num 0), jget data "results")

/-- `BaseService._search_unlimited`: compile the filters and always run the
single-stage `$search` pipeline — there is no empty-compound fallback
here. -/
def search_unlimited (repo : Repo) (collection : String) (index : String)
    (text_filters autocomplete_filters equal_filters : JDict)
    (range_filters : List (String × JDict))
    (not_text_filters not_autocomplete_filters not_equal_filters : JDict)
    (not_null_filters : List String)
    (sort : Option JDict) : List JValue :=
  let step := base_search index text_filters autocomplete_filters equal_filters
    range_filters not_text_filters not_autocomplete_filters not_equal_filters
    not_null_filters sort
  repo.aggregateAll collection [.obj [("$search", encodeSearchStep step)]]

/-- `BaseService._query_paginated`: count plus the requested page. -/
def query_paginated (repo : Repo) (collection : String) (page limit : Int)
    (and_conditions or_conditions : List Cond)
    (sort : Option JValue) (projection : Option (List String)) :
    Nat × List JValue :=
  let q := base_query collection and_conditions or_conditions
  (repo.count q, repo.paginate q page limit sort projection)

/-- The `limit` keyword actually forwarded by `_query` /
`_query_with_count`: `kwargs` gains a `limit` key only when the Python
value is truthy, i.e. not `None` and not `0`. -/
def forwardedLimit : Option Int → Option Int
  | none => none
  | some l => if l = 0 then none else some l

/-- `BaseService._query`. -/
def service_query (repo : Repo) (collection : String)
    (and_conditions or_conditions : List Cond)
    (sort : Option JValue) (projection : Option (List String))
    (limit : Option Int) : List JValue :=
  repo.getAll (base_query collection and_conditions or_conditions)
    sort projection (forwardedLimit limit)

/-- `BaseService._query_with_count`. -/
def service_query_with_count (repo : Repo) (collection : String)
    (and_conditions or_conditions : List Cond)
    (sort : Option JValue) (projection : Option (List String))
    (limit : Option Int) : Nat × List JValue :=
  let q := base_query collection and_conditions or_conditions
  (repo.count q, repo.getAll q sort projection (forwardedLimit limit))

/-! ## Generic CRUD (`BaseService.update` / `BaseService.set`)

The service is generic over the entity model; the embedding keeps it
generic: an entity model type contributes `model_validate` (which either
raises `ValidationError` — `none` — or returns an instance), a
`model_dump(by_alias=True)` serializer, and the `id` attribute read by the
persist-by-id calls. -/

/-- The pieces of an entity model class the generic service uses. -/
structure EntityOps (M : Type) where
  validate : JDict → Option M
  dump : M → JDict
  getId : M → JValue

/-- The write half of the repository collaborator:
`update(collection, id, record)` and `set(collection, id, record)`, each
returning the matched count. -/
structure WriteRepo where
  update : String → JValue → JDict → Nat
  set : String → JValue → JDict → Nat

/-- `BaseService.update`: hydrate (propagating a validation failure),
persist by id, and return the instance when the matched count is nonzero,
`None` otherwise.  The outer `Option` is the exception layer: `none` means
`model_validate` raised. -/
def service_update {M : Type} (ops : EntityOps M) (repo : WriteRepo)
    (collection : String) (document_data : JDict) : Option (Option M) :=
  (ops.validate document_data).map fun m =>
    if repo.update collection (ops.getId m) (ops.dump m) ≠ 0 then some m else none

/-- `BaseService.set`: identical to `update` but calling the repository's
full-replace `set`. -/
def service_set {M : Type} (ops : EntityOps M) (repo : WriteRepo)
    (collection : String) (document_data : JDict) : Option (Option M) :=
  (ops.validate document_data).map fun m =>
    if repo.set collection (ops.getId m) (ops.dump m) ≠ 0 then some m else none

/-! ## Entity model (`UpdatableModel`, `VehiclesModel`)

`round(time() * 1000)` is the explicit parameter `now : Int`.  Hydration
(`model_validate`) returns `none` where pydantic raises
`ValidationError`. -/

/-- `UpdatableModel._set_updated_at_as_created_at` (mode="before"):
`data["updated_at"] = data.get("updated_at", data.get("created_at", now))`.
Note `dict.get` returns the stored value even when it is `None`. -/
def set_updated_at_as_created_at (now : Int) (data : JDict) : JDict :=
  dictSet data "updated_at"
    ((jget data "updated_at").getD ((jget data "created_at").getD (.num now)))

/-- `VehiclesModel` (its own fields plus the inherited
`updated_at : PositiveInt`).  Optional fields default to `None`. -/
structure Vehicle where
  updated_at : Int
  version : String
  stock_id : String
  km : Int
  price : Int
  make : String
  model : String
  year : Int
  version_vehicle : Option String := none
  bluetooth : Option Bool := none
  length : Option Int := none
  width : Option Int := none
  height : Option Int := none
  car_play : Option Bool := none
  deriving Repr, DecidableEq

/-- Parse a required `str` field. -/
def pStr (d : JDict) (k : String) : Option String :=
  match jget d k with
  | some (.str s) => some s
  | _ => none

/-- Parse a required `int` field. -/
def pInt (d : JDict) (k : String) : Option Int :=
  match jget d k with
  | some (.num n) => some n
  | _ => none

/-- Parse a `PositiveInt` field: an int that must be `> 0`. -/
def pPosInt (d : JDict) (k : String) : Option Int :=
  match jget d k with
  | some (.num n) => if 0 < n then some n else none
  | _ => none

/-- Parse the `version: Literal["1.0.0"] = "1.0.0"` field. -/
def pVersion (d : JDict) : Option String :=
  match jget d "version" with
  | none => some "1.0.0"
  | some (.str s) => if s = "1.0.0" then some s else none
  | some _ => none

/-- Parse an `Optional[str] = None` field. -/
def pOptStr (d : JDict) (k : String) : Option (Option String) :=
  match jget d k with
  | none => some none
  | some .null => some none
  | some (.str s) => some (some s)
  | some _ => none

/-- Parse an `Optional[int] = None` field. -/
def pOptInt (d : JDict) (k : String) : Option (Option Int) :=
  match jget d k with
  | none => some none
  | some .null => some none
  | some (.num n) => some (some n)
  | some _ => none

/-- Parse an `Optional[bool] = None` field. -/
def pOptBool (d : JDict) (k : String) : Option (Option Bool) :=
  match jget d k with
  | none => some none
  | some .null => some none
  | some (.bool b) => some (some b)
  | some _ => none

/-- Field validation for `VehiclesModel`: check each declared field of the
(post-before-validator) dict; extra keys are ignored; any failed field
check is a `ValidationError`. -/
def vehicleFields (d : JDict) : Option Vehicle :=
  match pPosInt d "updated_at", pVersion d, pStr d "stock_id", pInt d "km",
    pInt d "price", pStr d "make", pStr d "model", pInt d "year",
    pOptStr d "version_vehicle", pOptBool d "bluetooth", pOptInt d "length",
    pOptInt d "width", pOptInt d "height", pOptBool d "car_play" with
  | some updated_at, some version, some stock_id, some km, some price,
    some make, some model, some year, some version_vehicle, some bluetooth,
    some length, some width, some height, some car_play =>
      some ⟨updated_at, version, stock_id, km, price, make, model, year,
        version_vehicle, bluetooth, length, width, height, car_play⟩
  | _, _, _, _, _, _, _, _, _, _, _, _, _, _ => none

/-- `VehiclesModel.model_validate(data)`: run the inherited before-validator
(which makes `updated_at` present in every input), then validate the
fields.  `updated_at`'s `default_factory` never fires because the
before-validator always stores the key. -/
def vehicleValidate (now : Int) (data : JDict) : Option Vehicle :=
  vehicleFields (set_updated_at_as_created_at now data)

/-- Encode an optional string as a dumped dict value. -/
def jOptStr : Option String → JValue
  | none => .null
  | some s => .str s

/-- Encode an optional int as a dumped dict value. -/
def jOptInt : Option Int → JValue
  | none => .null
  | some n => .num n

/-- Encode an optional bool as a dumped dict value. -/
def jOptBool : Option Bool → JValue
  | none => .null
  | some b => .bool b

/-- `VehiclesModel(...).model_dump()`: every declared field, `None`
included. -/
def vehicleDump (v : Vehicle) : JDict :=
  [ ("updated_at", .num v.updated_at),
    ("version", .str v.version),
    ("stock_id", .str v.stock_id),
    ("km", .num v.km),
    ("price", .num v.price),
    ("make", .str v.make),
    ("model", .str v.model),
    ("year", .num v.year),
    ("version_vehicle", jOptStr v.version_vehicle),
    ("bluetooth", jOptBool v.bluetooth),
    ("length", jOptInt v.length),
    ("width", jOptInt v.width),
    ("height", jOptInt v.height),
    ("car_play", jOptBool v.car_play) ]

/-- The dict `{**self.model_dump(), **data, "updated_at": now}` built by
`UpdatableModel.update`. -/
def updateMergeDict (v : Vehicle) (data : JDict) (now : Int) : JDict :=
  dictSet (pyMerge (vehicleDump v) data) "updated_at" (.num now)

/-- `UpdatableModel.update(data)` on a `VehiclesModel` instance: validate
the merged dict and copy every field in `model_fields_set` back onto the
live instance.  The merged dict contains every declared field key (the
dump supplies them all), so `model_fields_set` is the full field set and
the net effect on success is that the instance becomes the re-validated
merge; a `ValidationError` (`none`) leaves the instance untouched. -/
def vehicleUpdate (v : Vehicle) (data : JDict) (now : Int) : Option Vehicle :=
  vehicleValidate now (updateMergeDict v data now)

/-! ## Specification-side accessors and concrete sample values -/

/-- Look a key up inside an object value. -/
def objGet (v : JValue) (k : String) : Option JValue :=
  match v with
  | .obj d => jget d k
  | _ => none

/-- The `$skip` value of the `results` branch of a paginated search
pipeline. -/
def pipelineSkip (p : List JValue) : Option JValue :=
  match p[1]? with
  | none => none
  | some stage =>
    match objGet stage "$facet" with
    | none => none
    | some f =>
      match objGet f "results" with
      | some (.arr (s :: _)) => objGet s "$skip"
      | _ => none

/-- The `$limit` value of the `results` branch of a paginated search
pipeline. -/
def pipelineResultsLimit (p : List JValue) : Option JValue :=
  match p[1]? with
  | none => none
  | some stage =>
    match objGet stage "$facet" with
    | none => none
    | some f =>
      match objGet f "results" with
      | some (.arr (_ :: l :: _)) => objGet l "$limit"
      | _ => none

/-- A concrete repository whose plain-query and aggregation answers are
distinguishable. -/
def cexRepo : Repo where
  count := fun _ => 3
  getAll := fun _ _ _ _ => []
  paginate := fun _ _ _ _ _ => [.str "paginated"]
  aggregateNext := fun _ _ => []
  aggregateAll := fun _ _ => [.str "aggregated"]

/-- A concrete repository used to instantiate witnesses. -/
def sampleRepo : Repo where
  count := fun _ => 7
  getAll := fun _ _ _ limit => match limit with | none => [.num 1, .num 2] | some _ => [.num 1]
  paginate := fun _ _ _ _ _ => [.num 1]
  aggregateNext := fun _ _ => [("count", .num 7), ("results", .arr [])]
  aggregateAll := fun _ _ => []

/-- Trivial entity-model operations used to instantiate witnesses. -/
def sampleOps : EntityOps Nat where
  validate := fun _ => some 7
  dump := fun _ => []
  getId := fun _ => .null

/-- A write repository whose `update` matches one record and whose `set`
matches none. -/
def sampleWriteRepo : WriteRepo where
  update := fun _ _ _ => 1
  set := fun _ _ _ => 0

/-- A concrete valid vehicle record. -/
def vw : Vehicle where
  updated_at := 3
  version := "1.0.0"
  stock_id := "s"
  km := 1
  price := 2
  make := "mk"
  model := "md"
  year := 4

/-- A vehicle whose `updated_at` equals the clock value of a subsequent
update call (an update within the same millisecond). -/
def v0 : Vehicle where
  updated_at := 5
  version := "1.0.0"
  stock_id := "s"
  km := 1
  price := 2
  make := "m"
  model := "o"
  year := 3

/-- The creation payload of the spec's `create` scenario. -/
def sampleDoc : JDict :=
  [("stock_id", .str "ABC123"), ("km", .num 5000), ("price", .num 15000),
   ("make", .str "Toyota"), ("model", .str "Corolla"), ("year", .num 2020)]

/-- `sampleDoc` hydrated at clock value 3. -/
def vd : Vehicle where
  updated_at := 3
  version := "1.0.0"
  stock_id := "ABC123"
  km := 5000
  price := 15000
  make := "Toyota"
  model := "Corolla"
  year := 2020

/-! ## Helper lemmas about dict operations -/

@[simp] theorem jget_nil (k : String) : jget [] k = none := rfl

@[simp] theorem jget_cons (k' k : String) (v : JValue) (rest : JDict) :
    jget ((k', v) :: rest) k = if k' = k then some v else jget rest k := rfl

@[simp] theorem jget_dictSet (d : JDict) (k k' : String) (v : JValue) :
    jget (dictSet d k v) k' = if k = k' then some v else jget d k' := by
  induction d with
  | nil => simp [dictSet, jget]
  | cons p rest ih =>
    obtain ⟨k₀, v₀⟩ := p
    by_cases h₀ : k₀ = k
    · subst h₀
      by_cases h₁ : k₀ = k'
      · subst h₁; simp [dictSet, jget]
      · simp [dictSet, jget, h₁]
    · by_cases h₁ : k₀ = k'
      · subst h₁
        simp [dictSet, jget, h₀, Ne.symm h₀]
      · simp [dictSet, jget, h₀, h₁, ih]

theorem jget_pyMerge_of_absent (l : JDict) (d : JDict) (k : String)
    (h : ∀ p ∈ l, p.1 ≠ k) : jget (pyMerge d l) k = jget d k := by
  induction l generalizing d with
  | nil => rfl
  | cons p rest ih =>
    have hp : p.1 ≠ k := h p (List.mem_cons_self p rest)
    have hrest : ∀ q ∈ rest, q.1 ≠ k := fun q hq => h q (List.mem_cons_of_mem p hq)
    simp only [pyMerge, List.foldl_cons]
    rw [show (rest.foldl (fun acc kv => dictSet acc kv.1 kv.2) (dictSet d p.1 p.2))
          = pyMerge (dictSet d p.1 p.2) rest from rfl, ih _ hrest]
    simp [hp]

theorem jget_pyMerge_of_lookup (l : JDict) (d : JDict) (k : String) (v : JValue)
    (hnd : (l.map Prod.fst).Nodup) (h : jget l k = some v) :
    jget (pyMerge d l) k = some v := by
  induction l generalizing d with
  | nil => simp [jget] at h
  | cons p rest ih =>
    obtain ⟨k₀, v₀⟩ := p
    simp only [List.map_cons, List.nodup_cons] at hnd
    by_cases h₀ : k₀ = k
    · subst h₀
      have hv : v₀ = v := by simpa using h
      subst hv
      have habs : ∀ q ∈ rest, q.1 ≠ k₀ := by
        intro q hq hqk
        exact hnd.1 (hqk ▸ List.mem_map_of_mem Prod.fst hq)
      simp only [pyMerge, List.foldl_cons]
      rw [show (rest.foldl (fun acc kv => dictSet acc kv.1 kv.2) (dictSet d k₀ v₀))
            = pyMerge (dictSet d k₀ v₀) rest from rfl,
          jget_pyMerge_of_absent rest _ _ habs]
      simp
    · simp only [jget_cons, if_neg h₀] at h
      simp only [pyMerge, List.foldl_cons]
      exact ih (dictSet d k₀ v₀) hnd.2 h

/-! ## Helper lemmas about the parsers and hydration -/

theorem pStr_known {d : JDict} {k : String} {s s' : String}
    (hj : jget d k = some (.str s)) (hp : pStr d k = some s') : s' = s := by
  simp [pStr, hj] at hp
  exact hp.symm

theorem pInt_known {d : JDict} {k : String} {n n' : Int}
    (hj : jget d k = some (.num n)) (hp : pInt d k = some n') : n' = n := by
  simp [pInt, hj] at hp
  exact hp.symm

theorem pPosInt_known {d : JDict} {k : String} {n n' : Int}
    (hj : jget d k = some (.num n)) (hp : pPosInt d k = some n') : n' = n := by
  simp only [pPosInt, hj] at hp
  split at hp
  · exact (Option.some.inj hp).symm
  · exact Option.noConfusion hp

theorem pVersion_known {d : JDict} {s s' : String}
    (hj : jget d "version" = some (.str s)) (hp : pVersion d = some s') : s' = s := by
  simp only [pVersion, hj] at hp
  split at hp
  · exact (Option.some.inj hp).symm
  · exact Option.noConfusion hp

theorem pVersion_val {d : JDict} {s : String} (hp : pVersion d = some s) :
    s = "1.0.0" := by
  unfold pVersion at hp
  split at hp
  · exact (Option.some.inj hp).symm
  · rename_i s' _
    split at hp
    · rename_i hs
      cases Option.some.inj hp
      exact hs
    · exact Option.noConfusion hp
  · exact Option.noConfusion hp

theorem pOptStr_known {d : JDict} {k : String} {x y : Option String}
    (hj : jget d k = some (jOptStr x)) (hp : pOptStr d k = some y) : y = x := by
  cases x <;> simp [pOptStr, jOptStr, hj] at hp <;> simp [hp]

theorem pOptInt_known {d : JDict} {k : String} {x y : Option Int}
    (hj : jget d k = some (jOptInt x)) (hp : pOptInt d k = some y) : y = x := by
  cases x <;> simp [pOptInt, jOptInt, hj] at hp <;> simp [hp]

theorem pOptBool_known {d : JDict} {k : String} {x y : Option Bool}
    (hj : jget d k = some (jOptBool x)) (hp : pOptBool d k = some y) : y = x := by
  cases x <;> simp [pOptBool, jOptBool, hj] at hp <;> simp [hp]

theorem pStr_of_jget {d : JDict} {k : String} {s : String}
    (hj : jget d k = some (.str s)) : pStr d k = some s := by
  simp [pStr, hj]

theorem pInt_of_jget {d : JDict} {k : String} {n : Int}
    (hj : jget d k = some (.num n)) : pInt d k = some n := by
  simp [pInt, hj]

theorem pPosInt_of_jget {d : JDict} {k : String} {n : Int}
    (hj : jget d k = some (.num n)) (hn : 0 < n) : pPosInt d k = some n := by
  simp [pPosInt, hj, hn]

theorem pVersion_of_jget {d : JDict} {s : String}
    (hj : jget d "version" = some (.str s)) (hs : s = "1.0.0") :
    pVersion d = some s := by
  simp [pVersion, hj, hs]

theorem pOptStr_of_jget {d : JDict} {k : String} {x : Option String}
    (hj : jget d k = some (jOptStr x)) : pOptStr d k = some x := by
  cases x <;> simp [pOptStr, jOptStr, hj]

theorem pOptInt_of_jget {d : JDict} {k : String} {x : Option Int}
    (hj : jget d k = some (jOptInt x)) : pOptInt d k = some x := by
  cases x <;> simp [pOptInt, jOptInt, hj]

theorem pOptBool_of_jget {d : JDict} {k : String} {x : Option Bool}
    (hj : jget d k = some (jOptBool x)) : pOptBool d k = some x := by
  cases x <;> simp [pOptBool, jOptBool, hj]

theorem vehicleFields_inv {d : JDict} {v : Vehicle}
    (h : vehicleFields d = some v) :
    pPosInt d "updated_at" = some v.updated_at
    ∧ pVersion d = some v.version
    ∧ pStr d "stock_id" = some v.stock_id
    ∧ pInt d "km" = some v.km
    ∧ pInt d "price" = some v.price
    ∧ pStr d "make" = some v.make
    ∧ pStr d "model" = some v.model
    ∧ pInt d "year" = some v.year
    ∧ pOptStr d "version_vehicle" = some v.version_vehicle
    ∧ pOptBool d "bluetooth" = some v.bluetooth
    ∧ pOptInt d "length" = some v.length
    ∧ pOptInt d "width" = some v.width
    ∧ pOptInt d "height" = some v.height
    ∧ pOptBool d "car_play" = some v.car_play := by
  unfold vehicleFields at h
  split at h
  · cases h
    rename_i h1 h2 h3 h4 h5 h6 h7 h8 h9 h10 h11 h12 h13 h14
    exact ⟨h1, h2, h3, h4, h5, h6, h7, h8, h9, h10, h11, h12, h13, h14⟩
  · exact Option.noConfusion h

theorem vehicleFields_of_all {d : JDict} {v : Vehicle}
    (h1 : pPosInt d "updated_at" = some v.updated_at)
    (h2 : pVersion d = some v.version)
    (h3 : pStr d "stock_id" = some v.stock_id)
    (h4 : pInt d "km" = some v.km)
    (h5 : pInt d "price" = some v.price)
    (h6 : pStr d "make" = some v.make)
    (h7 : pStr d "model" = some v.model)
    (h8 : pInt d "year" = some v.year)
    (h9 : pOptStr d "version_vehicle" = some v.version_vehicle)
    (h10 : pOptBool d "bluetooth" = some v.bluetooth)
    (h11 : pOptInt d "length" = some v.length)
    (h12 : pOptInt d "width" = some v.width)
    (h13 : pOptInt d "height" = some v.height)
    (h14 : pOptBool d "car_play" = some v.car_play) :
    vehicleFields d = some v := by
  unfold vehicleFields
  rw [h1, h2, h3, h4, h5, h6, h7, h8, h9, h10, h11, h12, h13, h14]

theorem pPosInt_pos {d : JDict} {k : String} {n : Int}
    (hp : pPosInt d k = some n) : 0 < n := by
  unfold pPosInt at hp
  split at hp
  · rename_i m _
    split at hp
    · rename_i hm
      cases Option.some.inj hp
      exact hm
    · exact Option.noConfusion hp
  · exact Option.noConfusion hp

theorem jget_eq_none_forall {l : JDict} {k : String} (h : jget l k = none) :
    ∀ p ∈ l, p.1 ≠ k := by
  induction l with
  | nil => simp
  | cons q rest ih =>
    obtain ⟨k₀, v₀⟩ := q
    by_cases hk : k₀ = k
    · simp [jget, hk] at h
    · intro p hp
      rcases List.mem_cons.mp hp with rfl | hp'
      · exact hk
      · exact ih (by simpa [jget, hk] using h) p hp'

theorem jget_updateMergeDict_updated_at (v : Vehicle) (data : JDict) (now : Int) :
    jget (updateMergeDict v data now) "updated_at" = some (.num now) := by
  simp [updateMergeDict]

theorem jget_updateMergeDict_absent {v : Vehicle} {data : JDict} {now : Int}
    {k : String} (hk : k ≠ "updated_at") (hd : jget data k = none) :
    jget (updateMergeDict v data now) k = jget (vehicleDump v) k := by
  simp only [updateMergeDict, jget_dictSet, if_neg (Ne.symm hk)]
  exact jget_pyMerge_of_absent data (vehicleDump v) k (jget_eq_none_forall hd)

theorem jget_updateMergeDict_present {v : Vehicle} {data : JDict} {now : Int}
    {k : String} {w : JValue} (hk : k ≠ "updated_at")
    (hnd : (data.map Prod.fst).Nodup) (hd : jget data k = some w) :
    jget (updateMergeDict v data now) k = some w := by
  simp only [updateMergeDict, jget_dictSet, if_neg (Ne.symm hk)]
  exact jget_pyMerge_of_lookup data (vehicleDump v) k w hnd hd

theorem jget_set_updated_at_of_present (now : Int) {d : JDict} {u : JValue}
    (hu : jget d "updated_at" = some u) :
    ∀ k, jget (set_updated_at_as_created_at now d) k = jget d k := by
  intro k
  by_cases hk : "updated_at" = k
  · subst hk
    simp [set_updated_at_as_created_at, hu]
  · simp [set_updated_at_as_created_at, hu, hk]

theorem vehicleValidate_invariants {now : Int} {d : JDict} {v : Vehicle}
    (h : vehicleValidate now d = some v) :
    v.version = "1.0.0" ∧ 0 < v.updated_at := by
  unfold vehicleValidate at h
  obtain ⟨h1, h2, _⟩ := vehicleFields_inv h
  exact ⟨pVersion_val h2, pPosInt_pos h1⟩

theorem vehicleValidate_dump {v : Vehicle} (now' : Int)
    (hv : v.version = "1.0.0") (hpos : 0 < v.updated_at) :
    vehicleValidate now' (vehicleDump v) = some v := by
  unfold vehicleValidate
  have hu : jget (vehicleDump v) "updated_at" = some (.num v.updated_at) := by
    simp [vehicleDump]
  have hall := jget_set_updated_at_of_present now' hu
  apply vehicleFields_of_all
  · exact pPosInt_of_jget (by rw [hall]; simp [vehicleDump]) hpos
  · exact pVersion_of_jget (by rw [hall]; simp [vehicleDump]) hv
  · exact pStr_of_jget (by rw [hall]; simp [vehicleDump])
  · exact pInt_of_jget (by rw [hall]; simp [vehicleDump])
  · exact pInt_of_jget (by rw [hall]; simp [vehicleDump])
  · exact pStr_of_jget (by rw [hall]; simp [vehicleDump])
  · exact pStr_of_jget (by rw [hall]; simp [vehicleDump])
  · exact pInt_of_jget (by rw [hall]; simp [vehicleDump])
  · exact pOptStr_of_jget (by rw [hall]; simp [vehicleDump])
  · exact pOptBool_of_jget (by rw [hall]; simp [vehicleDump])
  · exact pOptInt_of_jget (by rw [hall]; simp [vehicleDump])
  · exact pOptInt_of_jget (by rw [hall]; simp [vehicleDump])
  · exact pOptInt_of_jget (by rw [hall]; simp [vehicleDump])
  · exact pOptBool_of_jget (by rw [hall]; simp [vehicleDump])

theorem vehicleUpdate_updated_at {v : Vehicle} {data : JDict} {now : Int}
    {v' : Vehicle} (h : vehicleUpdate v data now = some v') :
    v'.updated_at = now := by
  unfold vehicleUpdate vehicleValidate at h
  obtain ⟨h1, _⟩ := vehicleFields_inv h
  have hmd := jget_updateMergeDict_updated_at v data now
  have hs := jget_set_updated_at_of_present now hmd "updated_at"
  rw [hmd] at hs
  exact pPosInt_known hs h1

theorem jget_updDict_absent {v : Vehicle} {data : JDict} {now : Int}
    {k : String} (hk : k ≠ "updated_at") (hd : jget data k = none) :
    jget (set_updated_at_as_created_at now (updateMergeDict v data now)) k
      = jget (vehicleDump v) k := by
  rw [jget_set_updated_at_of_present now (jget_updateMergeDict_updated_at v data now) k,
      jget_updateMergeDict_absent hk hd]

/-! ## Claim theorems -/

/-- C1: when every filter category is empty or absent, the compiled stage's
compound clause is the empty structure — no `filter`, `should` or
`mustNot` bucket — whatever the index name and sort. -/
theorem base_search_all_empty_compound_empty (index : String) (sort : Option JDict) :
    (base_search index [] [] [] [] [] [] [] [] sort).compound
      = { filter := none, mustNot := none, should := none, minimumShouldMatch := none }
    ∧ (base_search index [] [] [] [] [] [] [] [] sort).compound.isEmpty = true :=
  ⟨rfl, rfl⟩

/-- C4: compiling index `"vehicles"`, `equal = {"make": "Toyota"}`,
`range = {"price": {"gte": 10000, "lte": 20000}}`, `sort = {"price": 1}`
yields exactly two `filter` entries — an `equals` leaf for `make` and a
`range` leaf for `price` with the bounds passed through verbatim — a
stage-level `sort` outside the compound clause, and no `mustNot` or
`should` keys. -/
theorem base_search_vehicles_scenario :
    base_search "vehicles" [] [] [("make", .str "Toyota")]
      [("price", [("gte", .num 10000), ("lte", .num 20000)])] [] [] [] []
      (some [("price", .num 1)]) =
    { index := "vehicles"
      compound :=
        { filter := some
            [.obj [("equals", .obj [("value", .str "Toyota"), ("path", .str "make")])],
             .obj [("range", .obj [("path", .str "price"), ("gte", .num 10000),
               ("lte", .num 20000)])]]
          mustNot := none
          should := none
          minimumShouldMatch := none }
      sort := some [("price", .num 1)] } := rfl

/-- C5: for `page ≥ 1` and `limit > 0` the paginated search pipeline's
`results` branch skips exactly `limit * (page - 1)` documents and limits
to `limit` documents; `page = 1` gives a skip of 0. -/
theorem search_pipeline_window (step : SearchStep) (page limit : Int)
    (hp : 1 ≤ page) (_hl : 0 < limit) :
    pipelineSkip (search_pipeline step page limit) = some (.num (limit * (page - 1)))
    ∧ pipelineResultsLimit (search_pipeline step page limit) = some (.num limit)
    ∧ (page = 1 →
        pipelineSkip (search_pipeline step page limit) = some (.num 0)) := by
  refine ⟨rfl, rfl, ?_⟩
  intro h
  subst h
  have hbase : pipelineSkip (search_pipeline step 1 limit)
      = some (.num (limit * (1 - 1))) := rfl
  rw [hbase]
  norm_num

/-- Witness for C5 at `page = 2`, `limit = 10`. -/
theorem search_pipeline_window_witness :
    pipelineSkip (search_pipeline
        (base_search "vehicles" [] [] [] [] [] [] [] [] none) 2 10)
      = some (.num (10 * (2 - 1)))
    ∧ pipelineResultsLimit (search_pipeline
        (base_search "vehicles" [] [] [] [] [] [] [] [] none) 2 10)
      = some (.num 10)
    ∧ ((2 : Int) = 1 → pipelineSkip (search_pipeline
        (base_search "vehicles" [] [] [] [] [] [] [] [] none) 2 10)
      = some (.num 0)) :=
  search_pipeline_window _ 2 10 (by norm_num) (by norm_num)

/-- C2: a non-empty autocomplete filter map always yields a `should`
bucket with exactly one `{autocomplete: {query, path}}` entry per field
and `minimumShouldMatch = 1`, and no autocomplete entry ever lands in the
`filter` bucket. -/
theorem base_search_autocomplete_should (index : String) (tf ac ef : JDict)
    (rf : List (String × JDict)) (ntf naf nef : JDict) (nnf : List String)
    (sort : Option JDict) (h : ac ≠ []) :
    (base_search index tf ac ef rf ntf naf nef nnf sort).compound.should
        = some (ac.map fun kv => autocompleteClause kv.1 kv.2)
    ∧ (((base_search index tf ac ef rf ntf naf nef nnf sort).compound.should).getD []).length
        = ac.length
    ∧ (base_search index tf ac ef rf ntf naf nef nnf sort).compound.minimumShouldMatch
        = some 1
    ∧ ∀ l, (base_search index tf ac ef rf ntf naf nef nnf sort).compound.filter = some l →
        ∀ c ∈ l, ∀ k v, c ≠ autocompleteClause k v := by
  have hac : ac.isEmpty = false := by
    cases ac with
    | nil => exact absurd rfl h
    | cons a l => rfl
  refine ⟨?_, ?_, ?_, ?_⟩
  · simp [base_search, hac]
  · simp [base_search, hac]
  · simp [base_search, hac]
  · intro l hl c hc k v hceq
    simp only [base_search] at hl
    split at hl
    · exact Option.noConfusion hl
    · cases hl
      simp only [List.mem_append] at hc
      rcases hc with ((hc | hc) | hc) | hc
      · obtain ⟨kv, -, rfl⟩ := List.mem_map.mp hc
        simp [textClause, autocompleteClause] at hceq
      · obtain ⟨kv, -, rfl⟩ := List.mem_map.mp hc
        simp [equalsClause, autocompleteClause] at hceq
      · obtain ⟨kv, -, rfl⟩ := List.mem_map.mp hc
        simp [rangeClause, autocompleteClause] at hceq
      · obtain ⟨k', -, rfl⟩ := List.mem_map.mp hc
        simp [wildcardClause, autocompleteClause] at hceq

/-- Witness for C2 at the one-field autocomplete map
`{"make": "To"}`. -/
theorem base_search_autocomplete_should_witness :
    (base_search "i" [] [("make", JValue.str "To")] [] [] [] [] [] [] none).compound.should
      = some [autocompleteClause "make" (JValue.str "To")]
    ∧ (base_search "i" [] [("make", JValue.str "To")] [] [] [] [] [] [] none).compound.minimumShouldMatch
      = some 1 :=
  ⟨(base_search_autocomplete_should "i" [] [("make", JValue.str "To")] [] [] [] [] []
      [] none (by simp)).1,
   (base_search_autocomplete_should "i" [] [("make", JValue.str "To")] [] [] [] [] []
      [] none (by simp)).2.2.1⟩

/-- C3 (amended): the paginated search with no filters degrades to the
plain paginated query — it returns exactly the `(count, records)` pair of
`_query_paginated` with the same page and limit on the same collection.
(The unlimited search does not degrade; see the counterexample.) -/
theorem search_paginated_no_filters_falls_back (repo : Repo)
    (collection index : String) (page limit : Int) :
    search_paginated repo collection index page limit [] [] [] [] [] [] [] [] none
      = (.num ((query_paginated repo collection page limit [] [] none none).1 : Int),
         some (.arr (query_paginated repo collection page limit [] [] none none).2)) := rfl

/-- Counterexample to C3 as stated: `_search_unlimited` with no filters
still issues the `$search` aggregation pipeline — on a repository whose
aggregation and plain-query answers differ, it returns the aggregation
result, not the plain paginated query result. -/
theorem search_unlimited_no_filters_still_searches :
    search_unlimited cexRepo "vehicles" "idx" [] [] [] [] [] [] [] [] none
      = [.str "aggregated"]
    ∧ cexRepo.paginate (base_query "vehicles" [] []) 1 50 none none
      = [.str "paginated"]
    ∧ ([JValue.str "aggregated"] : List JValue) ≠ [.str "paginated"] := by
  refine ⟨rfl, rfl, ?_⟩
  intro hcontra
  simp at hcontra

/-- C8: the before-validator keeps a supplied `updated_at`, else inherits
`created_at` when present, else stamps the current clock value; in every
case `updated_at` ends up set. -/
theorem set_updated_at_defaulting (d : JDict) (now : Int) :
    (∀ uv, jget d "updated_at" = some uv →
        jget (set_updated_at_as_created_at now d) "updated_at" = some uv)
    ∧ (jget d "updated_at" = none → ∀ cv, jget d "created_at" = some cv →
        jget (set_updated_at_as_created_at now d) "updated_at" = some cv)
    ∧ (jget d "updated_at" = none → jget d "created_at" = none →
        jget (set_updated_at_as_created_at now d) "updated_at" = some (.num now))
    ∧ ∃ x, jget (set_updated_at_as_created_at now d) "updated_at" = some x := by
  refine ⟨fun uv hu => ?_, fun hu cv hc => ?_, fun hu hc => ?_, ?_⟩
  · simp [set_updated_at_as_created_at, hu]
  · simp [set_updated_at_as_created_at, hu, hc]
  · simp [set_updated_at_as_created_at, hu, hc]
  · refine ⟨(jget d "updated_at").getD ((jget d "created_at").getD (JValue.num now)), ?_⟩
    simp [set_updated_at_as_created_at]

/-- Witness for C8 on the three input shapes. -/
theorem set_updated_at_defaulting_witness :
    jget (set_updated_at_as_created_at 7 [("created_at", JValue.num 42)]) "updated_at"
      = some (.num 42)
    ∧ jget (set_updated_at_as_created_at 7 ([] : JDict)) "updated_at" = some (.num 7)
    ∧ jget (set_updated_at_as_created_at 7 [("updated_at", JValue.num 9)]) "updated_at"
      = some (.num 9) :=
  ⟨(set_updated_at_defaulting [("created_at", JValue.num 42)] 7).2.1 rfl (JValue.num 42) rfl,
   (set_updated_at_defaulting [] 7).2.2.1 rfl rfl,
   (set_updated_at_defaulting [("updated_at", JValue.num 9)] 7).1 (JValue.num 9) rfl⟩

/-- C9: when hydration succeeds, `update` and `set` raise nothing; they
return the hydrated instance exactly when the repository reports a
nonzero matched count and `None` when zero records matched. -/
theorem service_update_set_matched_count {M : Type} (ops : EntityOps M)
    (repo : WriteRepo) (c : String) (d : JDict) (m : M)
    (h : ops.validate d = some m) :
    (service_update ops repo c d).isSome = true
    ∧ (service_set ops repo c d).isSome = true
    ∧ (repo.update c (ops.getId m) (ops.dump m) ≠ 0 →
        service_update ops repo c d = some (some m))
    ∧ (repo.update c (ops.getId m) (ops.dump m) = 0 →
        service_update ops repo c d = some none)
    ∧ (repo.set c (ops.getId m) (ops.dump m) ≠ 0 →
        service_set ops repo c d = some (some m))
    ∧ (repo.set c (ops.getId m) (ops.dump m) = 0 →
        service_set ops repo c d = some none) := by
  refine ⟨?_, ?_, fun hne => ?_, fun hz => ?_, fun hne => ?_, fun hz => ?_⟩
  · simp [service_update, h]
  · simp [service_set, h]
  · simp [service_update, h, hne]
  · simp [service_update, h, hz]
  · simp [service_set, h, hne]
  · simp [service_set, h, hz]

/-- Witness for C9: an update matching one record returns the instance; a
set matching zero records returns `None` without raising. -/
theorem service_update_set_matched_count_witness :
    service_update sampleOps sampleWriteRepo "c" [] = some (some 7)
    ∧ service_set sampleOps sampleWriteRepo "c" [] = some none :=
  ⟨(service_update_set_matched_count sampleOps sampleWriteRepo "c" [] 7 rfl).2.2.1
      (by decide),
   (service_update_set_matched_count sampleOps sampleWriteRepo "c" [] 7 rfl).2.2.2.2.2
      rfl⟩

/-- C10: `_query` and `_query_with_count` treat `limit = 0` (or `None`)
as "no limit": the limit keyword is not forwarded to the repository query
and the call behaves exactly like the unlimited one, while a nonzero
limit is forwarded. -/
theorem query_limit_zero_not_forwarded (repo : Repo) (c : String)
    (a o : List Cond) (s : Option JValue) (p : Option (List String)) :
    service_query repo c a o s p (some 0) = service_query repo c a o s p none
    ∧ service_query repo c a o s p none
        = repo.getAll (base_query c a o) s p none
    ∧ service_query_with_count repo c a o s p (some 0)
        = service_query_with_count repo c a o s p none
    ∧ service_query_with_count repo c a o s p none
        = (repo.count (base_query c a o), repo.getAll (base_query c a o) s p none)
    ∧ ∀ l : Int, l ≠ 0 →
        service_query repo c a o s p (some l)
          = repo.getAll (base_query c a o) s p (some l) := by
  refine ⟨rfl, rfl, rfl, rfl, ?_⟩
  intro l hl
  simp [service_query, forwardedLimit, hl]

/-- Witness for C10 at `limit = 0` and `limit = 5`. -/
theorem query_limit_zero_not_forwarded_witness :
    service_query sampleRepo "c" [] [] none none (some 0)
      = service_query sampleRepo "c" [] [] none none none
    ∧ service_query sampleRepo "c" [] [] none none (some 5)
      = sampleRepo.getAll (base_query "c" [] []) none none (some 5) :=
  ⟨(query_limit_zero_not_forwarded sampleRepo "c" [] [] none none).1,
   (query_limit_zero_not_forwarded sampleRepo "c" [] [] none none).2.2.2.2 5
      (by norm_num)⟩

/-- C6: `update(delta)` overwrites `updated_at` with the call's clock
value, overlays the delta's fields over the current values in the merge
dict it validates, leaves every field not mentioned in the delta at its
prior value, and with an empty delta changes nothing but `updated_at`. -/
theorem vehicle_update_frame (v : Vehicle) (data : JDict) (now : Int) :
    (∀ v', vehicleUpdate v data now = some v' →
      v'.updated_at = now
      ∧ (jget data "version" = none → v'.version = v.version)
      ∧ (jget data "stock_id" = none → v'.stock_id = v.stock_id)
      ∧ (jget data "km" = none → v'.km = v.km)
      ∧ (jget data "price" = none → v'.price = v.price)
      ∧ (jget data "make" = none → v'.make = v.make)
      ∧ (jget data "model" = none → v'.model = v.model)
      ∧ (jget data "year" = none → v'.year = v.year)
      ∧ (jget data "version_vehicle" = none → v'.version_vehicle = v.version_vehicle)
      ∧ (jget data "bluetooth" = none → v'.bluetooth = v.bluetooth)
      ∧ (jget data "length" = none → v'.length = v.length)
      ∧ (jget data "width" = none → v'.width = v.width)
      ∧ (jget data "height" = none → v'.height = v.height)
      ∧ (jget data "car_play" = none → v'.car_play = v.car_play))
    ∧ ((data.map Prod.fst).Nodup → ∀ k w, k ≠ "updated_at" → jget data k = some w →
        jget (updateMergeDict v data now) k = some w)
    ∧ (v.version = "1.0.0" → 0 < now →
        vehicleUpdate v [] now = some { v with updated_at := now }) := by
  refine ⟨?_, ?_, ?_⟩
  · intro v' h
    obtain ⟨h1, h2, h3, h4, h5, h6, h7, h8, h9, h10, h11, h12, h13, h14⟩ :=
      vehicleFields_inv
        (show vehicleFields
            (set_updated_at_as_created_at now (updateMergeDict v data now)) = some v'
          from h)
    refine ⟨?_, fun hd => ?_, fun hd => ?_, fun hd => ?_, fun hd => ?_, fun hd => ?_,
      fun hd => ?_, fun hd => ?_, fun hd => ?_, fun hd => ?_, fun hd => ?_,
      fun hd => ?_, fun hd => ?_, fun hd => ?_⟩
    · have hmd := jget_updateMergeDict_updated_at v data now
      have hs := jget_set_updated_at_of_present now hmd "updated_at"
      rw [hmd] at hs
      exact pPosInt_known hs h1
    · exact pVersion_known
        (by rw [jget_updDict_absent (by decide) hd]; simp [vehicleDump]) h2
    · exact pStr_known
        (by rw [jget_updDict_absent (by decide) hd]; simp [vehicleDump]) h3
    · exact pInt_known
        (by rw [jget_updDict_absent (by decide) hd]; simp [vehicleDump]) h4
    · exact pInt_known
        (by rw [jget_updDict_absent (by decide) hd]; simp [vehicleDump]) h5
    · exact pStr_known
        (by rw [jget_updDict_absent (by decide) hd]; simp [vehicleDump]) h6
    · exact pStr_known
        (by rw [jget_updDict_absent (by decide) hd]; simp [vehicleDump]) h7
    · exact pInt_known
        (by rw [jget_updDict_absent (by decide) hd]; simp [vehicleDump]) h8
    · exact pOptStr_known
        (by rw [jget_updDict_absent (by decide) hd]; simp [vehicleDump]) h9
    · exact pOptBool_known
        (by rw [jget_updDict_absent (by decide) hd]; simp [vehicleDump]) h10
    · exact pOptInt_known
        (by rw [jget_updDict_absent (by decide) hd]; simp [vehicleDump]) h11
    · exact pOptInt_known
        (by rw [jget_updDict_absent (by decide) hd]; simp [vehicleDump]) h12
    · exact pOptInt_known
        (by rw [jget_updDict_absent (by decide) hd]; simp [vehicleDump]) h13
    · exact pOptBool_known
        (by rw [jget_updDict_absent (by decide) hd]; simp [vehicleDump]) h14
  · intro hnd k w hk hkw
    exact jget_updateMergeDict_present hk hnd hkw
  · intro hv hpos
    show vehicleFields
        (set_updated_at_as_created_at now (updateMergeDict v [] now))
      = some { v with updated_at := now }
    have hu := jget_updateMergeDict_updated_at v [] now
    have hall := jget_set_updated_at_of_present now hu
    apply vehicleFields_of_all
    · exact pPosInt_of_jget (by rw [hall]; simp [updateMergeDict, pyMerge]) hpos
    · exact pVersion_of_jget
        (by rw [hall]; simp [updateMergeDict, pyMerge, vehicleDump]) hv
    · exact pStr_of_jget (by rw [hall]; simp [updateMergeDict, pyMerge, vehicleDump])
    · exact pInt_of_jget (by rw [hall]; simp [updateMergeDict, pyMerge, vehicleDump])
    · exact pInt_of_jget (by rw [hall]; simp [updateMergeDict, pyMerge, vehicleDump])
    · exact pStr_of_jget (by rw [hall]; simp [updateMergeDict, pyMerge, vehicleDump])
    · exact pStr_of_jget (by rw [hall]; simp [updateMergeDict, pyMerge, vehicleDump])
    · exact pInt_of_jget (by rw [hall]; simp [updateMergeDict, pyMerge, vehicleDump])
    · exact pOptStr_of_jget
        (by rw [hall]; simp [updateMergeDict, pyMerge, vehicleDump])
    · exact pOptBool_of_jget
        (by rw [hall]; simp [updateMergeDict, pyMerge, vehicleDump])
    · exact pOptInt_of_jget
        (by rw [hall]; simp [updateMergeDict, pyMerge, vehicleDump])
    · exact pOptInt_of_jget
        (by rw [hall]; simp [updateMergeDict, pyMerge, vehicleDump])
    · exact pOptInt_of_jget
        (by rw [hall]; simp [updateMergeDict, pyMerge, vehicleDump])
    · exact pOptBool_of_jget
        (by rw [hall]; simp [updateMergeDict, pyMerge, vehicleDump])

/-- Witness for C6: an empty-delta update at clock 11 of a concrete
record only restamps `updated_at`; a delta key survives into the merge
dict; the restamped record's `updated_at` is the clock value. -/
theorem vehicle_update_frame_witness :
    vehicleUpdate vw [] 11 = some { vw with updated_at := 11 }
    ∧ jget (updateMergeDict vw [("km", JValue.num 9)] 11) "km" = some (.num 9)
    ∧ ({ vw with updated_at := 11 } : Vehicle).updated_at = 11 :=
  have h0 : vehicleUpdate vw [] 11 = some { vw with updated_at := 11 } :=
    (vehicle_update_frame vw [] 11).2.2 rfl (by norm_num)
  ⟨h0,
   (vehicle_update_frame vw [("km", JValue.num 9)] 11).2.1 (by decide) "km"
     (JValue.num 9) (by decide) rfl,
   ((vehicle_update_frame vw [] 11).1 _ h0).1⟩

/-- Counterexample to C7 as stated: an `update()` whose clock value
equals the record's current `updated_at` (an update within the same
millisecond) leaves `updated_at` unchanged, so it does not strictly
increase after every `update()` call. -/
theorem update_same_millisecond_not_strict :
    vehicleUpdate v0 [] 5 = some v0
    ∧ v0.updated_at = 5
    ∧ ¬ v0.updated_at < v0.updated_at :=
  ⟨rfl, rfl, by decide⟩

/-- C7 (amended): hydrate–serialize–rehydrate is the identity on every
field (`updated_at` included); after an `update()` call, `updated_at`
equals the call's clock value, hence strictly increases whenever that
clock value exceeds the prior `updated_at`. -/
theorem hydrate_dump_rehydrate_roundtrip (now now' : Int) (d : JDict) (v : Vehicle)
    (h : vehicleValidate now d = some v) :
    vehicleValidate now' (vehicleDump v) = some v
    ∧ ∀ data now2 v', vehicleUpdate v data now2 = some v' →
        v'.updated_at = now2 ∧ (v.updated_at < now2 → v.updated_at < v'.updated_at) := by
  obtain ⟨hv, hpos⟩ := vehicleValidate_invariants h
  refine ⟨vehicleValidate_dump now' hv hpos, ?_⟩
  intro data now2 v' hu
  have hs := vehicleUpdate_updated_at hu
  exact ⟨hs, fun hlt => by rw [hs]; exact hlt⟩

/-- Witness for C7: the spec's creation payload hydrates at clock 3,
round-trips, and an update at clock 12 strictly advances
`updated_at`. -/
theorem hydrate_dump_rehydrate_roundtrip_witness :
    vehicleValidate 9 (vehicleDump vd) = some vd
    ∧ ({ vd with updated_at := 12 } : Vehicle).updated_at = 12
    ∧ vd.updated_at < ({ vd with updated_at := 12 } : Vehicle).updated_at :=
  have h0 : vehicleValidate 3 sampleDoc = some vd := rfl
  have h1 : vehicleUpdate vd [] 12 = some { vd with updated_at := 12 } := rfl
  ⟨(hydrate_dump_rehydrate_roundtrip 3 9 sampleDoc vd h0).1,
   ((hydrate_dump_rehydrate_roundtrip 3 9 sampleDoc vd h0).2 [] 12 _ h1).1,
   ((hydrate_dump_rehydrate_roundtrip 3 9 sampleDoc vd h0).2 [] 12 _ h1).2
     (by decide)⟩

end Kavak
